import Mathlib

/-
Verification of the head-tracked off-axis projection pipeline in
`src/script.js` (3d_dancing).  The stateful JavaScript is embedded as pure
Lean functions over rational numbers: the per-frame tracking step
`predictWebcam`, the projector `updateOffAxisCamera`, the resize handler
`onWindowResize`, and the per-frame cycle `animate` become explicit
state-passing functions on an `AppState` record.
-/

namespace Dancing

/-- `PARALLAX_SCALE = 50.0` in script.js. -/
def PARALLAX_SCALE : ℚ := 50

/-- `SCREEN_WIDTH = 40` (fixed world units). -/
def SCREEN_WIDTH : ℚ := 40

/-- `SCREEN_HEIGHT = 22.5` (initial value; recomputed on resize). -/
def SCREEN_HEIGHT : ℚ := 45 / 2

/-- `headZ = 30`, the fixed camera distance; never reassigned in the source. -/
def headZ : ℚ := 30

/-- The smoothing factor `0.15` applied in `headX += (targetX - headX) * 0.15`. -/
def alpha : ℚ := 15 / 100

/-- One facial landmark point in normalized coordinates, as delivered by the
face landmark model (`results.faceLandmarks[0][k]`). -/
structure Landmark where
  x : ℚ
  y : ℚ
deriving DecidableEq

/-- The face landmark model outputs a fixed-size set of 478 points. -/
def LandmarkSet : Type := Fin 478 → Landmark

/-- The mutable globals of script.js that the tracking step reads and
writes: `headX`, `headY`, `lastVideoTime`. -/
structure AppState where
  headX : ℚ
  headY : ℚ
  lastVideoTime : ℚ
deriving DecidableEq

/-- Startup values: `headX = 0`, `headY = 0`, `lastVideoTime = -1`. -/
def initState : AppState := ⟨0, 0, -1⟩

/-- The per-frame external environment of one `predictWebcam` call:
`ready` collapses the guard `!faceLandmarker || !video || video.paused ||
video.ended`; `currentTime` is `video.currentTime`; `landmarks` is the
detection result (`none` when `results.faceLandmarks` is empty). -/
structure Frame where
  ready : Bool
  currentTime : ℚ
  landmarks : Option LandmarkSet

/-- `const nose = results.faceLandmarks[0][1]`: the reference head point is
the single landmark at index 1. -/
def noseOf (ls : LandmarkSet) : Landmark := ls 1

/-- `const rawX = (0.5 - nose.x) * 2`. -/
def rawX (nose : Landmark) : ℚ := (1 / 2 - nose.x) * 2

/-- `const rawY = (nose.y - 0.5) * 2`. -/
def rawY (nose : Landmark) : ℚ := (nose.y - 1 / 2) * 2

/-- `const targetX = rawX * PARALLAX_SCALE`. -/
def targetX (nose : Landmark) : ℚ := rawX nose * PARALLAX_SCALE

/-- `const targetY = -rawY * PARALLAX_SCALE * 0.5`. -/
def targetY (nose : Landmark) : ℚ := -rawY nose * PARALLAX_SCALE * (1 / 2)

/-- One exponential-smoothing update: `prev += (target - prev) * 0.15`. -/
def smoothStep (previous target : ℚ) : ℚ :=
  previous + (target - previous) * alpha

/-- The per-frame tracking step `predictWebcam()`: early return when not
ready or when `lastVideoTime === video.currentTime`; otherwise record the
timestamp, and if a face was detected, smooth `headX`/`headY` toward the
targets computed from landmark index 1. -/
def predictWebcam (s : AppState) (f : Frame) : AppState :=
  if f.ready = false then s
  else if s.lastVideoTime = f.currentTime then s
  else
    let s1 : AppState := { s with lastVideoTime := f.currentTime }
    match f.landmarks with
    | none => s1
    | some ls =>
      let nose := noseOf ls
      { s1 with
        headX := smoothStep s1.headX (targetX nose)
        headY := smoothStep s1.headY (targetY nose) }

/-- The six values handed to `camera.projectionMatrix.makePerspective`. -/
structure Frustum where
  left : ℚ
  right : ℚ
  top : ℚ
  bottom : ℚ
  near : ℚ
  far : ℚ
deriving DecidableEq

/-- Body of `updateOffAxisCamera()` after `camera.position.set(headX, headY,
headZ)`: with camera position `(x, y, z)` and screen extents `W × H`,
`dist = |z|`, `scale = near / dist`, and the four asymmetric frustum edges. -/
def updateOffAxisCamera (x y z W H : ℚ) : Frustum :=
  let near : ℚ := 1 / 10
  let far : ℚ := 1000
  let dist : ℚ := |z|
  let scale : ℚ := near / dist
  { left := (-W / 2 - x) * scale
    right := (W / 2 - x) * scale
    top := (H / 2 - y) * scale
    bottom := (-H / 2 - y) * scale
    near := near
    far := far }

/-- The frustum the app computes for a given state: camera position is
`(headX, headY, headZ)` and the screen is `SCREEN_WIDTH × SCREEN_HEIGHT`. -/
def appFrustum (s : AppState) : Frustum :=
  updateOffAxisCamera s.headX s.headY headZ SCREEN_WIDTH SCREEN_HEIGHT

/-- One iteration of `animate()`: first `updateOffAxisCamera()` (the frustum
applied to this cycle's render call), then `renderer.render`, then
`predictWebcam()` producing the state the next cycle sees. -/
def animate (s : AppState) (f : Frame) : Frustum × AppState :=
  (appFrustum s, predictWebcam s f)

/-- `onWindowResize()`: `SCREEN_HEIGHT = SCREEN_WIDTH / (innerWidth /
innerHeight)`; returns the new screen height. -/
def onWindowResize (viewportWidth viewportHeight : ℚ) : ℚ :=
  SCREEN_WIDTH / (viewportWidth / viewportHeight)

/-- Modelled from the spec: the reference-point selection the spec describes
(midpoint of two eye-corner landmarks), stated for comparison with the
source's `noseOf`. -/
def specEyeMidpoint (a b : Landmark) : Landmark :=
  ⟨(a.x + b.x) / 2, (a.y + b.y) / 2⟩

/-- Folding the tracking step over a sequence of frames from startup. -/
def runFrames (frames : List Frame) : AppState :=
  frames.foldl predictWebcam initState

/-- A frame whose detected face has the nose landmark at the left edge
`(0, 0.5)`, used as a concrete input. -/
def noseLeftSet : LandmarkSet := fun _ => ⟨0, 1 / 2⟩

/-- Concrete frame at timestamp 1 with the nose at the left edge. -/
def frameA : Frame := ⟨true, 1, some noseLeftSet⟩

/-- Concrete frame at timestamp 2 with the nose at the left edge. -/
def frameB : Frame := ⟨true, 2, some noseLeftSet⟩

/-- The landmark bound carried by a frame: every coordinate the tracker
delivers lies in the normalized square. -/
def landmarksInUnitSquare (f : Frame) : Prop :=
  ∀ ls, f.landmarks = some ls → ∀ k : Fin 478,
    0 ≤ (ls k).x ∧ (ls k).x ≤ 1 ∧ 0 ≤ (ls k).y ∧ (ls k).y ≤ 1

lemma targetX_bound (nose : Landmark) (h0 : 0 ≤ nose.x) (h1 : nose.x ≤ 1) :
    |targetX nose| ≤ 50 := by
  rw [abs_le]
  unfold targetX rawX PARALLAX_SCALE
  constructor <;> nlinarith

lemma targetY_bound (nose : Landmark) (h0 : 0 ≤ nose.y) (h1 : nose.y ≤ 1) :
    |targetY nose| ≤ 25 := by
  rw [abs_le]
  unfold targetY rawY PARALLAX_SCALE
  constructor <;> nlinarith

lemma smoothStep_bound (p t B : ℚ) (hp : |p| ≤ B) (ht : |t| ≤ B) :
    |smoothStep p t| ≤ B := by
  rw [abs_le] at *
  unfold smoothStep alpha
  constructor <;> linarith

lemma predictWebcam_bound (s : AppState) (f : Frame)
    (hsx : |s.headX| ≤ 50) (hsy : |s.headY| ≤ 25)
    (hf : landmarksInUnitSquare f) :
    |(predictWebcam s f).headX| ≤ 50 ∧ |(predictWebcam s f).headY| ≤ 25 := by
  unfold predictWebcam
  by_cases hr : f.ready = false
  · simpa [hr] using ⟨hsx, hsy⟩
  · by_cases he : s.lastVideoTime = f.currentTime
    · simpa [hr, he] using ⟨hsx, hsy⟩
    · cases hls : f.landmarks with
      | none => simpa [hr, he, hls] using ⟨hsx, hsy⟩
      | some ls =>
        have h1 := hf ls hls 1
        simp only [hr, he, hls, if_neg, ite_false, Bool.false_eq_true]
        exact ⟨smoothStep_bound _ _ _ hsx (targetX_bound _ h1.1 h1.2.1),
               smoothStep_bound _ _ _ hsy (targetY_bound _ h1.2.2.1 h1.2.2.2)⟩

lemma foldl_predictWebcam_bound (frames : List Frame) (s : AppState)
    (hsx : |s.headX| ≤ 50) (hsy : |s.headY| ≤ 25)
    (hf : ∀ f ∈ frames, landmarksInUnitSquare f) :
    |(frames.foldl predictWebcam s).headX| ≤ 50 ∧
    |(frames.foldl predictWebcam s).headY| ≤ 25 := by
  induction frames generalizing s with
  | nil => exact ⟨hsx, hsy⟩
  | cons f rest ih =>
    rw [List.foldl_cons]
    have hstep := predictWebcam_bound s f hsx hsy (hf f (by simp))
    exact ih _ hstep.1 hstep.2 fun g hg => hf g (by simp [hg])

/-- C1: for every camera position `(x, y, z)` with `z ≠ 0` and screen `W × H`,
the projector uses `scale = near / |z|` and produces the four edges
`left = (-W/2 - x)·scale`, `right = (W/2 - x)·scale`, `top = (H/2 - y)·scale`,
`bottom = (-H/2 - y)·scale`; at head `(0,0,30)`, screen `40 × 22.5`,
`near = 0.1`, this gives `scale = 1/300`, `left = -1/15`, `right = 1/15`,
`top = 3/80`, `bottom = -3/80`. -/
theorem c1_offaxis_frustum_formula (x y z W H : ℚ) (hz : z ≠ 0) :
    (updateOffAxisCamera x y z W H).left = (-W / 2 - x) * ((1 / 10) / |z|) ∧
    (updateOffAxisCamera x y z W H).right = (W / 2 - x) * ((1 / 10) / |z|) ∧
    (updateOffAxisCamera x y z W H).top = (H / 2 - y) * ((1 / 10) / |z|) ∧
    (updateOffAxisCamera x y z W H).bottom = (-H / 2 - y) * ((1 / 10) / |z|) ∧
    (1 / 10 : ℚ) / |(30 : ℚ)| = 1 / 300 ∧
    updateOffAxisCamera 0 0 30 40 (45 / 2) =
      ⟨-1 / 15, 1 / 15, 3 / 80, -3 / 80, 1 / 10, 1000⟩ := by
  refine ⟨rfl, rfl, rfl, rfl, by norm_num [abs_of_pos], ?_⟩
  simp only [updateOffAxisCamera, Frustum.mk.injEq]
  norm_num [abs_of_pos]

/-- Witness for C1 at head `(0,0,30)`, screen `40 × 22.5`. -/
theorem c1_offaxis_frustum_formula_witness :
    (30 : ℚ) ≠ 0 ∧
    (updateOffAxisCamera 0 0 30 40 (45 / 2)).left =
      (-40 / 2 - 0) * ((1 / 10) / |(30 : ℚ)|) :=
  ⟨by norm_num, (c1_offaxis_frustum_formula 0 0 30 40 (45 / 2) (by norm_num)).1⟩

/-- C6: the tracking step updates each axis independently by
`next = previous + (target - previous) * 0.15`, and iterating the smoothing
step `n` times toward a constant target `T` from `S0` gives
`T + (S0 - T) * (1 - alpha)^n`. -/
theorem c6_smoothing_closed_form (T S0 : ℚ) (n : ℕ) (s : AppState) (t : ℚ)
    (ls : LandmarkSet) (h : s.lastVideoTime ≠ t) :
    (predictWebcam s ⟨true, t, some ls⟩).headX
      = s.headX + (targetX (noseOf ls) - s.headX) * (15 / 100) ∧
    (predictWebcam s ⟨true, t, some ls⟩).headY
      = s.headY + (targetY (noseOf ls) - s.headY) * (15 / 100) ∧
    (fun p => smoothStep p T)^[n] S0 = T + (S0 - T) * (1 - alpha) ^ n := by
  refine ⟨?_, ?_, ?_⟩
  · simp [predictWebcam, h, smoothStep, alpha]
  · simp [predictWebcam, h, smoothStep, alpha]
  · induction n with
    | zero => simp
    | succ n ih =>
      rw [Function.iterate_succ_apply', ih]
      unfold smoothStep alpha
      ring

/-- Witness for C6: from the start state, one frame at timestamp 1, and ten
iterated smoothing steps toward target 20. -/
theorem c6_smoothing_closed_form_witness :
    initState.lastVideoTime ≠ (1 : ℚ) ∧
    (fun p => smoothStep p 20)^[10] 0 = 20 + (0 - 20) * (1 - alpha) ^ 10 :=
  ⟨by norm_num [initState],
   (c6_smoothing_closed_form 20 0 10 initState 1 noseLeftSet
      (by norm_num [initState])).2.2⟩

/-- C7: for any head position strictly inside the half-extents of a positive
screen, the frustum computed at the fixed distance `headZ` has
`left < right` and `bottom < top`. -/
theorem c7_frustum_nondegenerate (x y W H : ℚ) (hx : |x| < W / 2)
    (hy : |y| < H / 2) (hW : 0 < W) (hH : 0 < H) :
    (updateOffAxisCamera x y headZ W H).left
      < (updateOffAxisCamera x y headZ W H).right ∧
    (updateOffAxisCamera x y headZ W H).bottom
      < (updateOffAxisCamera x y headZ W H).top := by
  have h30 : |(30 : ℚ)| = 30 := by norm_num [abs_of_pos]
  simp only [updateOffAxisCamera, headZ, h30]
  constructor <;> [nlinarith; nlinarith]

/-- Witness for C7 at head `(1, -2)` on the default `40 × 22.5` screen. -/
theorem c7_frustum_nondegenerate_witness :
    |(1 : ℚ)| < 40 / 2 ∧ |(-2 : ℚ)| < (45 / 2) / 2 ∧ (0 : ℚ) < 40 ∧
      (0 : ℚ) < 45 / 2 ∧
    (updateOffAxisCamera 1 (-2) headZ 40 (45 / 2)).left
      < (updateOffAxisCamera 1 (-2) headZ 40 (45 / 2)).right :=
  ⟨by norm_num, by norm_num, by norm_num, by norm_num,
   (c7_frustum_nondegenerate 1 (-2) 40 (45 / 2) (by norm_num) (by norm_num)
      (by norm_num) (by norm_num)).1⟩

/-- C8: after the resize handler, `height * viewportWidth = width *
viewportHeight` exactly for positive viewport dimensions; a 16:9 viewport
with screen width 40 yields height 22.5. -/
theorem c8_resize_aspect (w h : ℚ) (hw : 0 < w) (hh : 0 < h) :
    onWindowResize w h * w = SCREEN_WIDTH * h ∧
    onWindowResize 16 9 = 45 / 2 := by
  constructor
  · unfold onWindowResize SCREEN_WIDTH
    field_simp
  · unfold onWindowResize SCREEN_WIDTH
    norm_num

/-- Witness for C8 at a 1600 × 900 viewport. -/
theorem c8_resize_aspect_witness :
    (0 : ℚ) < 1600 ∧ (0 : ℚ) < 900 ∧
    onWindowResize 1600 900 * 1600 = SCREEN_WIDTH * 900 :=
  ⟨by norm_num, by norm_num,
   (c8_resize_aspect 1600 900 (by norm_num) (by norm_num)).1⟩

/-- C9: running the tracking step a second time with the same frame (same
timestamp) changes nothing: the whole state, in particular `headX` and
`headY`, is left untouched. -/
theorem c9_dedup_no_change (s : AppState) (f : Frame) :
    predictWebcam (predictWebcam s f) f = predictWebcam s f := by
  unfold predictWebcam
  by_cases hr : f.ready = false
  · simp [hr]
  · by_cases he : s.lastVideoTime = f.currentTime
    · simp [hr, he]
    · cases hls : f.landmarks <;> simp [hr, he, hls]

/-- C2 counterexample: for the landmark at normalized `(0.7, 0.5)` the code
computes `targetX = -20`, not `rawX * (SCREEN_WIDTH/2) * 1.2 = -9.6` as the
claim states. -/
theorem c2_counterexample :
    targetX ⟨7 / 10, 1 / 2⟩ = -20 ∧
    targetX ⟨7 / 10, 1 / 2⟩ ≠ rawX ⟨7 / 10, 1 / 2⟩ * (SCREEN_WIDTH / 2) * (12 / 10) := by
  constructor <;> norm_num [targetX, rawX, SCREEN_WIDTH, PARALLAX_SCALE]

/-- C2 amended: the estimator scales the centered, mirrored offset by fixed
constants independent of the virtual screen: `targetX = (1 - 2·noseX) * 50`
(i.e. `rawX * PARALLAX_SCALE` with `PARALLAX_SCALE = 50`) and
`targetY = (1 - 2·noseY) * 25` (i.e. `-rawY * PARALLAX_SCALE * 0.5`); the
landmark at `(0.7, 0.5)` yields `targetX = -20`. -/
theorem c2_amended_fixed_scale (nose : Landmark) :
    targetX nose = (1 - 2 * nose.x) * 50 ∧
    targetY nose = (1 - 2 * nose.y) * 25 ∧
    targetX ⟨7 / 10, 1 / 2⟩ = -20 := by
  refine ⟨?_, ?_, ?_⟩ <;> simp [targetX, targetY, rawX, rawY, PARALLAX_SCALE] <;> ring

/-- C3 counterexample: there is no clamp: starting from the initial state,
two frames with the nose at the left edge drive `headX` to `13.875`, which
violates the claimed bound `|headX| ≤ 0.45 · (width/2) = 9`. -/
theorem c3_counterexample :
    (predictWebcam (predictWebcam initState frameA) frameB).headX = 111 / 8 ∧
    ¬ |(predictWebcam (predictWebcam initState frameA) frameB).headX|
        ≤ (45 / 100) * (SCREEN_WIDTH / 2) := by
  constructor <;>
    norm_num [predictWebcam, initState, frameA, frameB, noseLeftSet, noseOf,
      smoothStep, targetX, targetY, rawX, rawY, PARALLAX_SCALE, alpha,
      SCREEN_WIDTH, abs_le]

/-- C3 amended: the tracking step applies no clamp after smoothing: each
axis is exactly `previous + (target - previous) * 0.15`, and the smoothed
position can exceed 45% of the half-extent (it reaches `13.875 > 9` after
two frames with the nose at the left edge). -/
theorem c3_amended_no_clamp (s : AppState) (t : ℚ) (ls : LandmarkSet)
    (h : s.lastVideoTime ≠ t) :
    (predictWebcam s ⟨true, t, some ls⟩).headX
      = s.headX + (targetX (noseOf ls) - s.headX) * (15 / 100) ∧
    (predictWebcam s ⟨true, t, some ls⟩).headY
      = s.headY + (targetY (noseOf ls) - s.headY) * (15 / 100) ∧
    ¬ |(predictWebcam (predictWebcam initState frameA) frameB).headX|
        ≤ (45 / 100) * (SCREEN_WIDTH / 2) := by
  refine ⟨?_, ?_, ?_⟩
  · simp [predictWebcam, h, smoothStep, alpha]
  · simp [predictWebcam, h, smoothStep, alpha]
  · norm_num [predictWebcam, initState, frameA, frameB, noseLeftSet, noseOf,
      smoothStep, targetX, targetY, rawX, rawY, PARALLAX_SCALE, alpha,
      SCREEN_WIDTH, abs_le]

/-- Witness for the amended C3 at the initial state and a frame at
timestamp 1. -/
theorem c3_amended_no_clamp_witness :
    initState.lastVideoTime ≠ (1 : ℚ) ∧
    (predictWebcam initState ⟨true, 1, some noseLeftSet⟩).headX
      = initState.headX + (targetX (noseOf noseLeftSet) - initState.headX) * (15 / 100) :=
  ⟨by norm_num [initState],
   (c3_amended_no_clamp initState 1 noseLeftSet (by norm_num [initState])).1⟩

/-- C4 counterexample: no choice of two distinct fixed landmark indices has
its midpoint equal to the reference point the code uses on every landmark
set: the code reads the single landmark at index 1. -/
theorem c4_counterexample :
    ¬ ∃ i j : Fin 478, i ≠ j ∧
      ∀ ls : LandmarkSet, noseOf ls = specEyeMidpoint (ls i) (ls j) := by
  rintro ⟨i, j, hij, h⟩
  have h1 := h fun k => if k = 1 then ⟨0, 0⟩ else ⟨1, 1⟩
  have hx := congrArg Landmark.x h1
  simp only [noseOf, specEyeMidpoint] at hx
  by_cases hi : i = 1 <;> by_cases hj : j = 1
  · exact hij (hi.trans hj.symm)
  · rw [if_pos hi, if_neg hj] at hx
    norm_num at hx
  · rw [if_neg hi, if_pos hj] at hx
    norm_num at hx
  · rw [if_neg hi, if_neg hj] at hx
    norm_num at hx

/-- C4 amended: the estimator uses the single fixed landmark index 1 (the
nose tip) as the reference head point; the tracking update depends only on
that landmark, so any two landmark sets agreeing at index 1 produce the same
state. -/
theorem c4_amended_single_nose_landmark (s : AppState) (t : ℚ)
    (ls ls' : LandmarkSet) (h : ls 1 = ls' 1) :
    noseOf ls = ls 1 ∧
    predictWebcam s ⟨true, t, some ls⟩ = predictWebcam s ⟨true, t, some ls'⟩ := by
  refine ⟨rfl, ?_⟩
  simp only [predictWebcam, noseOf, h]

/-- A landmark set differing from `noseLeftSet` everywhere except index 1. -/
def otherSet : LandmarkSet := fun k => if k = 1 then ⟨0, 1 / 2⟩ else ⟨1, 1⟩

/-- Witness for the amended C4: `noseLeftSet` and `otherSet` agree only at
index 1 yet produce the same updated state. -/
theorem c4_amended_single_nose_landmark_witness :
    noseLeftSet 1 = otherSet 1 ∧
    predictWebcam initState ⟨true, 1, some noseLeftSet⟩
      = predictWebcam initState ⟨true, 1, some otherSet⟩ :=
  ⟨rfl, (c4_amended_single_nose_landmark initState 1 noseLeftSet otherSet rfl).2⟩

/-- C5 counterexample: in the cycle starting from the initial state with a
detected face, the frustum applied to the render (`left = -1/15`, computed
from the pre-tracking head position 0) differs from the frustum of the
head state updated by that same cycle's detection (`left = -11/120`, head
position 7.5): tracking happens after projection. -/
theorem c5_counterexample :
    (animate initState frameA).1.left = -1 / 15 ∧
    (appFrustum (animate initState frameA).2).left = -11 / 120 ∧
    (animate initState frameA).1 ≠ appFrustum (animate initState frameA).2 := by
  refine ⟨?_, ?_, ?_⟩ <;>
    norm_num [animate, appFrustum, updateOffAxisCamera, predictWebcam,
      initState, frameA, noseLeftSet, noseOf, smoothStep, targetX, targetY,
      rawX, rawY, PARALLAX_SCALE, alpha, SCREEN_WIDTH, SCREEN_HEIGHT, headZ,
      Frustum.mk.injEq, abs_of_pos]

/-- C5 amended: within one cycle the projection step runs before the
tracking step: the frustum applied to a cycle's render is computed from the
head state left by the previous cycle, and the current cycle's detection
reaches the frustum only on the following cycle. -/
theorem c5_amended_projection_before_tracking (s : AppState) (f g : Frame) :
    (animate s f).1 = appFrustum s ∧
    (animate s f).2 = predictWebcam s f ∧
    (animate (animate s f).2 g).1 = appFrustum (predictWebcam s f) :=
  ⟨rfl, rfl, rfl⟩

/-- C10: if every landmark coordinate the tracker delivers lies in `[0,1]`,
then from the initial head position `(0,0)` any number of tracking steps
keeps `|headX| ≤ 50` and `|headY| ≤ 25`: each target obeys those bounds and
smoothing is a convex combination. -/
theorem c10_head_position_bounded (frames : List Frame)
    (hf : ∀ f ∈ frames, landmarksInUnitSquare f) :
    |(runFrames frames).headX| ≤ 50 ∧ |(runFrames frames).headY| ≤ 25 := by
  unfold runFrames
  exact foldl_predictWebcam_bound frames initState (by norm_num [initState])
    (by norm_num [initState]) hf

/-- Witness for C10 on the single frame with the nose at the left edge. -/
theorem c10_head_position_bounded_witness :
    (∀ f ∈ [frameA], landmarksInUnitSquare f) ∧
    |(runFrames [frameA]).headX| ≤ 50 ∧ |(runFrames [frameA]).headY| ≤ 25 := by
  have hf : ∀ f ∈ [frameA], landmarksInUnitSquare f := by
    intro f hfm ls hls k
    simp only [List.mem_singleton] at hfm
    subst hfm
    simp only [frameA, Option.some.injEq] at hls
    subst hls
    norm_num [noseLeftSet]
  exact ⟨hf, c10_head_position_bounded [frameA] hf⟩

end Dancing
